import Mathlib

/-!
Verification of the battery-cell monitoring dashboard (`battery_dashboard.py`).

The program's reproducible core is embedded shallowly over `ℚ`:

* Python's `round(x, n)` (banker's rounding, round-half-to-even) is `pyRound`;
* the four chemistry profiles of `CELL_CONFIGS`;
* `generate_cell_data`, with every `random.uniform` draw made an explicit
  parameter (a `Draws` record) whose validity predicate records the stated
  uniform ranges; an unknown chemistry key is a `KeyError`, modelled as `none`;
* the Streamlit session state (current readings, bounded history, monitoring
  flag) as an explicit state record; since the history stores a *shallow copy*
  of the readings dict, the store maps cell ids to addresses into an
  append-only heap of readings, so that aliasing questions are faithful;
* the monitoring tick (regenerate every cell, append a snapshot, cap the
  history at 100) and the main-area render (aggregates vs. placeholder).
-/

/-- Python's `round` to an integer: round half to even (banker's rounding). -/
def pyRoundInt (x : ℚ) : ℤ :=
  if x - ⌊x⌋ < 1/2 then ⌊x⌋
  else if 1/2 < x - ⌊x⌋ then ⌊x⌋ + 1
  else if ⌊x⌋ % 2 = 0 then ⌊x⌋ else ⌊x⌋ + 1

/-- Python's `round(x, ndigits)` for `ndigits ≥ 0`. -/
def pyRound (x : ℚ) (ndigits : ℕ) : ℚ :=
  (pyRoundInt (x * 10 ^ ndigits) : ℚ) / 10 ^ ndigits

/-- One chemistry profile of `CELL_CONFIGS` (lines 59–84). -/
structure CellConfig where
  nominal_voltage : ℚ
  min_voltage : ℚ
  max_voltage : ℚ
  color : String
deriving Repr, DecidableEq

def LFP_config : CellConfig :=
  { nominal_voltage := 3.2, min_voltage := 2.8, max_voltage := 3.6, color := "#2ecc71" }

def NMC_config : CellConfig :=
  { nominal_voltage := 3.6, min_voltage := 3.2, max_voltage := 4.0, color := "#e74c3c" }

def LTO_config : CellConfig :=
  { nominal_voltage := 2.4, min_voltage := 1.5, max_voltage := 2.8, color := "#f39c12" }

def LiCoO2_config : CellConfig :=
  { nominal_voltage := 3.7, min_voltage := 3.0, max_voltage := 4.2, color := "#9b59b6" }

/-- The `CELL_CONFIGS` dict (lines 59–84), as an association list. -/
def CELL_CONFIGS : List (String × CellConfig) :=
  [("LFP", LFP_config), ("NMC", NMC_config), ("LTO", LTO_config), ("LiCoO2", LiCoO2_config)]

/-- The four `random.uniform` draws made inside one `generate_cell_data` call,
as explicit inputs. -/
structure Draws where
  voltage_variation : ℚ
  current_draw : ℚ
  temp_noise : ℚ
  capacity_draw : ℚ
deriving Repr, DecidableEq

/-- The stated ranges of the four uniform draws:
`uniform(-0.1, 0.1)`, `uniform(-5.0, 5.0)`, `uniform(-2, 8)`, `uniform(2.8, 3.2)`. -/
def Draws.valid (d : Draws) : Prop :=
  -0.1 ≤ d.voltage_variation ∧ d.voltage_variation ≤ 0.1 ∧
  -5 ≤ d.current_draw ∧ d.current_draw ≤ 5 ∧
  -2 ≤ d.temp_noise ∧ d.temp_noise ≤ 8 ∧
  2.8 ≤ d.capacity_draw ∧ d.capacity_draw ≤ 3.2

instance (d : Draws) : Decidable d.valid := by
  unfold Draws.valid; infer_instance

/-- One reading returned by `generate_cell_data` (lines 120–133). -/
structure CellReading where
  cell_id : String
  cell_type : String
  voltage : ℚ
  current : ℚ
  temperature : ℚ
  power : ℚ
  capacity : ℚ
  health : ℚ
  status : String
  timestamp : ℚ
  min_voltage : ℚ
  max_voltage : ℚ
deriving Repr, DecidableEq

/-- `voltage_health` (line 108): `100 * (1 - |voltage - nominal| / nominal)`. -/
def voltage_health (config : CellConfig) (voltage : ℚ) : ℚ :=
  100 * (1 - |voltage - config.nominal_voltage| / config.nominal_voltage)

/-- `temp_health` (line 109): `100 * max(0, 1 - max(0, temperature - 35) / 20)`. -/
def temp_health (temperature : ℚ) : ℚ :=
  100 * max 0 (1 - max 0 (temperature - 35) / 20)

/-- Body of `generate_cell_data` (lines 90–133) after the `CELL_CONFIGS[cell_type]`
lookup has succeeded. -/
def generateFromConfig (config : CellConfig) (cell_type cell_id : String)
    (current_time : ℚ) (d : Draws) : CellReading :=
  let base_voltage := config.nominal_voltage
  let voltage := pyRound (base_voltage + d.voltage_variation) 3
  let current := pyRound d.current_draw 2
  let base_temp : ℚ := 25
  let temp_variation := |current| * 0.5 + d.temp_noise
  let temperature := pyRound (base_temp + temp_variation) 1
  let power := pyRound (voltage * |current|) 2
  let capacity := pyRound d.capacity_draw 2
  let overall_health := pyRound ((voltage_health config voltage + temp_health temperature) / 2) 1
  let status :=
    if voltage < config.min_voltage ∨ config.max_voltage < voltage ∨ 45 < temperature then
      "Critical"
    else if 40 < temperature ∨ overall_health < 80 then
      "Warning"
    else
      "Good"
  { cell_id := cell_id
    cell_type := cell_type
    voltage := voltage
    current := current
    temperature := temperature
    power := power
    capacity := capacity
    health := overall_health
    status := status
    timestamp := current_time
    min_voltage := config.min_voltage
    max_voltage := config.max_voltage }

/-- `generate_cell_data` (lines 86–133). `CELL_CONFIGS[cell_type]` raises
`KeyError` on an unknown chemistry, modelled as `none`. -/
def generate_cell_data (cell_type cell_id : String) (current_time : ℚ)
    (d : Draws) : Option CellReading :=
  match List.lookup cell_type CELL_CONFIGS with
  | some config => some (generateFromConfig config cell_type cell_id current_time d)
  | none => none

/-- A history entry (lines 213–216): timestamp plus the *shallow copy*
`cells_data.copy()` of the current-readings dict. Readings live on an
append-only heap (Python objects are never mutated in place, only the dict's
values are rebound), so the copied dict is a map from cell id to heap address. -/
abbrev Snapshot : Type := ℚ × List (String × ℕ)

/-- One history update of the monitoring tick (lines 212–220): append the
snapshot, then keep only the last 100 records (`historical_data[-100:]`). -/
def tickHistory (historical_data : List Snapshot) (snap : Snapshot) : List Snapshot :=
  if 100 < (historical_data ++ [snap]).length then
    (historical_data ++ [snap]).drop ((historical_data ++ [snap]).length - 100)
  else historical_data ++ [snap]

/-- The Streamlit session state. `heap` is the append-only store of reading
objects; `cells_data` maps each cell id to the address of its current reading;
`historical_data` is the bounded history of snapshots. -/
structure DashState where
  heap : List CellReading
  cells_data : List (String × ℕ)
  historical_data : List Snapshot
  is_monitoring : Bool
deriving Repr, DecidableEq

/-- The per-cell regeneration loop of the monitoring tick (lines 208–210):
for each cell id in order, read `cells_data[cell_id]["cell_type"]` from the
current reading, call `generate_cell_data`, allocate the fresh reading on the
heap and rebind the id to the new address. `none` models a raised exception
(dangling address or unknown chemistry). -/
def regen (heap : List CellReading) (entries : List (String × ℕ))
    (current_time : ℚ) (ds : List Draws) :
    Option (List CellReading × List (String × ℕ)) :=
  match entries, ds with
  | [], _ => some (heap, [])
  | (cell_id, addr) :: rest, d :: ds' =>
      match heap[addr]? with
      | none => none
      | some old =>
        match generate_cell_data old.cell_type cell_id current_time d with
        | none => none
        | some r =>
          match regen (heap ++ [r]) rest current_time ds' with
          | none => none
          | some (heap', rest') => some (heap', (cell_id, heap.length) :: rest')
  | _ :: _, [] => none

/-- One monitoring tick of the main content area (lines 203–220): when
`is_monitoring` is set, every cell's reading is regenerated and a snapshot of
the updated store is appended to the history (capped at 100); otherwise the
re-render leaves the state untouched. -/
def tick (st : DashState) (current_time : ℚ) (ds : List Draws) : Option DashState :=
  if st.is_monitoring then
    match regen st.heap st.cells_data current_time ds with
    | none => none
    | some (heap', cells') =>
        some { heap := heap'
               cells_data := cells'
               historical_data := tickHistory st.historical_data (current_time, cells')
               is_monitoring := st.is_monitoring }
  else some st

/-- What the main content area shows (lines 203–246 vs. 412–413): either the
system-overview aggregates or the "please configure and initialize" notice. -/
inductive MainView where
  | overview (total_cells good_cells warning_cells critical_cells : ℕ)
      (avg_health total_power : ℚ)
  | placeholder
deriving Repr, DecidableEq

/-- The summary aggregates (lines 226–231) over the current readings, and the
empty-store guard `if st.session_state.cells_data:` (line 203): the aggregates
(including `np.mean`, a sum divided by the number of readings) are computed
only in the non-empty branch; an empty store renders the placeholder notice
(lines 412–413). -/
def render_main (cells_data : List (String × CellReading)) : MainView :=
  if cells_data.isEmpty then
    MainView.placeholder
  else
    MainView.overview
      cells_data.length
      (cells_data.countP (fun cell => cell.2.status == "Good"))
      (cells_data.countP (fun cell => cell.2.status == "Warning"))
      (cells_data.countP (fun cell => cell.2.status == "Critical"))
      ((cells_data.map (fun cell => cell.2.health)).sum / cells_data.length)
      ((cells_data.map (fun cell => cell.2.power)).sum)

/-- Validity of one snapshot's addresses with respect to a heap size. -/
def snapOk (heapLen : ℕ) (snap : Snapshot) : Prop :=
  ∀ p ∈ snap.2, p.2 < heapLen

/-- The session-state invariant: every address stored in the history points
into the heap. -/
def wfState (st : DashState) : Prop :=
  ∀ snap ∈ st.historical_data, snapOk st.heap.length snap

/-- The readings an already-stored snapshot denotes: each recorded cell id
paired with the reading object its address refers to. -/
def snapshotReadings (heap : List CellReading) (snap : Snapshot) :
    List (String × Option CellReading) :=
  snap.2.map (fun p => (p.1, heap[p.2]?))

/-- Sample draws: all noise at zero, capacity mid-range. -/
def d0 : Draws := ⟨0, 0, 0, 3⟩

/-- The reading generated for an LFP cell from the sample draws `d0`. -/
def r0 : CellReading := generateFromConfig LFP_config "LFP" "Cell_1_LFP" 0 d0

/-- Draw forcing an LFP voltage of 3.65 V (0.45 V above nominal). -/
def c1_draws : Draws := ⟨9/20, 0, 0, 3⟩

/-- The reading generated for an LFP cell from `c1_draws`: voltage 3.65 V. -/
def c1_reading : CellReading := generateFromConfig LFP_config "LFP" "Cell_1_LFP" 0 c1_draws

lemma le_pyRoundInt (A : ℤ) (x : ℚ) (h : (A : ℚ) ≤ x) : A ≤ pyRoundInt x := by
  unfold pyRoundInt
  have hf : A ≤ ⌊x⌋ := Int.le_floor.mpr h
  split_ifs <;> omega

lemma pyRoundInt_le (B : ℤ) (x : ℚ) (h : x ≤ (B : ℚ)) : pyRoundInt x ≤ B := by
  unfold pyRoundInt
  have hfB : ⌊x⌋ ≤ B := by
    have h2 := Int.floor_le_floor h
    rwa [Int.floor_intCast] at h2
  have hfl : (⌊x⌋ : ℚ) ≤ x := Int.floor_le x
  split_ifs with h1 h2 h3
  · exact hfB
  · have hq : (⌊x⌋ : ℚ) < (B : ℚ) := by linarith
    have hlt : ⌊x⌋ < B := by exact_mod_cast hq
    omega
  · exact hfB
  · have hx : x - (⌊x⌋ : ℚ) = 1/2 := le_antisymm (not_lt.mp h2) (not_lt.mp h1)
    have hq : (⌊x⌋ : ℚ) < (B : ℚ) := by linarith
    have hlt : ⌊x⌋ < B := by exact_mod_cast hq
    omega

/-- If `x * 10^n` lies between the integers `A` and `B`, then rounding `x` to
`n` digits stays between `A/10^n` and `B/10^n`. -/
lemma pyRound_bounds (A B : ℤ) (x : ℚ) (n : ℕ)
    (hA : (A : ℚ) ≤ x * 10 ^ n) (hB : x * 10 ^ n ≤ (B : ℚ)) :
    (A : ℚ) / 10 ^ n ≤ pyRound x n ∧ pyRound x n ≤ (B : ℚ) / 10 ^ n := by
  have hpos : (0 : ℚ) < 10 ^ n := by positivity
  have h1 : (A : ℚ) ≤ (pyRoundInt (x * 10 ^ n) : ℚ) :=
    Int.cast_le.mpr (le_pyRoundInt A _ hA)
  have h2 : ((pyRoundInt (x * 10 ^ n) : ℚ)) ≤ (B : ℚ) :=
    Int.cast_le.mpr (pyRoundInt_le B _ hB)
  unfold pyRound
  exact ⟨(div_le_div_iff_of_pos_right hpos).mpr h1, (div_le_div_iff_of_pos_right hpos).mpr h2⟩

lemma gfc_voltage (config : CellConfig) (ct cell_id : String) (t : ℚ) (d : Draws) :
    (generateFromConfig config ct cell_id t d).voltage =
      pyRound (config.nominal_voltage + d.voltage_variation) 3 := rfl

lemma gfc_current (config : CellConfig) (ct cell_id : String) (t : ℚ) (d : Draws) :
    (generateFromConfig config ct cell_id t d).current = pyRound d.current_draw 2 := rfl

lemma gfc_temperature (config : CellConfig) (ct cell_id : String) (t : ℚ) (d : Draws) :
    (generateFromConfig config ct cell_id t d).temperature =
      pyRound (25 + (|pyRound d.current_draw 2| * 0.5 + d.temp_noise)) 1 := rfl

lemma gfc_health (config : CellConfig) (ct cell_id : String) (t : ℚ) (d : Draws) :
    (generateFromConfig config ct cell_id t d).health =
      pyRound ((voltage_health config (pyRound (config.nominal_voltage + d.voltage_variation) 3) +
        temp_health (pyRound (25 + (|pyRound d.current_draw 2| * 0.5 + d.temp_noise)) 1)) / 2)
        1 := rfl

lemma gfc_status (config : CellConfig) (ct cell_id : String) (t : ℚ) (d : Draws) :
    (generateFromConfig config ct cell_id t d).status =
      (if pyRound (config.nominal_voltage + d.voltage_variation) 3 < config.min_voltage ∨
          config.max_voltage < pyRound (config.nominal_voltage + d.voltage_variation) 3 ∨
          45 < pyRound (25 + (|pyRound d.current_draw 2| * 0.5 + d.temp_noise)) 1 then
        "Critical"
      else if 40 < pyRound (25 + (|pyRound d.current_draw 2| * 0.5 + d.temp_noise)) 1 ∨
          pyRound ((voltage_health config (pyRound (config.nominal_voltage + d.voltage_variation) 3) +
            temp_health (pyRound (25 + (|pyRound d.current_draw 2| * 0.5 + d.temp_noise)) 1)) / 2)
            1 < 80 then
        "Warning"
      else "Good") := rfl

lemma gfc_min_voltage (config : CellConfig) (ct cell_id : String) (t : ℚ) (d : Draws) :
    (generateFromConfig config ct cell_id t d).min_voltage = config.min_voltage := rfl

lemma gfc_max_voltage (config : CellConfig) (ct cell_id : String) (t : ℚ) (d : Draws) :
    (generateFromConfig config ct cell_id t d).max_voltage = config.max_voltage := rfl

/-- Every successful `CELL_CONFIGS` lookup yields one of the four profiles. -/
lemma lookup_config_cases (ct : String) (config : CellConfig)
    (hlk : List.lookup ct CELL_CONFIGS = some config) :
    config = LFP_config ∨ config = NMC_config ∨ config = LTO_config ∨ config = LiCoO2_config := by
  by_cases h1 : ct = "LFP"
  · subst h1; simp [CELL_CONFIGS, List.lookup] at hlk; exact Or.inl hlk.symm
  by_cases h2 : ct = "NMC"
  · subst h2; simp [CELL_CONFIGS, List.lookup] at hlk; exact Or.inr (Or.inl hlk.symm)
  by_cases h3 : ct = "LTO"
  · subst h3; simp [CELL_CONFIGS, List.lookup] at hlk
    exact Or.inr (Or.inr (Or.inl hlk.symm))
  by_cases h4 : ct = "LiCoO2"
  · subst h4; simp [CELL_CONFIGS, List.lookup] at hlk
    exact Or.inr (Or.inr (Or.inr hlk.symm))
  have e1 : (ct == "LFP") = false := beq_eq_false_iff_ne.mpr h1
  have e2 : (ct == "NMC") = false := beq_eq_false_iff_ne.mpr h2
  have e3 : (ct == "LTO") = false := beq_eq_false_iff_ne.mpr h3
  have e4 : (ct == "LiCoO2") = false := beq_eq_false_iff_ne.mpr h4
  simp [CELL_CONFIGS, List.lookup, e1, e2, e3, e4] at hlk

/-- Core bounds for one generated reading, for any profile whose nominal
voltage is `N/10` volts with `N ≥ 24` and whose voltage band extends at least
0.1 V on each side of nominal (all four configured profiles qualify): the
rounded voltage stays within ±0.1 V of nominal and inside the band, the
rounded temperature stays within [23, 35.5] °C, the health components and the
rounded health are bounded, and the status comes out `"Good"`. -/
lemma generateFromConfig_bounds (config : CellConfig) (N : ℤ)
    (hN : config.nominal_voltage = (N : ℚ) / 10) (hN24 : 24 ≤ N)
    (hmin : config.min_voltage ≤ config.nominal_voltage - 1/10)
    (hmax : config.nominal_voltage + 1/10 ≤ config.max_voltage)
    (ct cell_id : String) (t : ℚ) (d : Draws) (hd : d.valid) (r : CellReading)
    (hr : r = generateFromConfig config ct cell_id t d) :
    config.nominal_voltage - 1/10 ≤ r.voltage ∧ r.voltage ≤ config.nominal_voltage + 1/10 ∧
    r.min_voltage ≤ r.voltage ∧ r.voltage ≤ r.max_voltage ∧
    23 ≤ r.temperature ∧ r.temperature ≤ 71/2 ∧
    575/6 ≤ voltage_health config r.voltage ∧ 195/2 ≤ temp_health r.temperature ∧
    483/5 ≤ r.health ∧ r.health ≤ 100 ∧ r.status = "Good" := by
  obtain ⟨hd1, hd2, hd3, hd4, hd5, hd6, hd7, hd8⟩ := hd
  have hNQ : (24 : ℚ) ≤ (N : ℚ) := by exact_mod_cast hN24
  subst hr
  simp only [gfc_voltage, gfc_temperature, gfc_health, gfc_status, gfc_min_voltage,
    gfc_max_voltage]
  have hvb := pyRound_bounds (100 * (N - 1)) (100 * (N + 1))
      (config.nominal_voltage + d.voltage_variation) 3
      (by push_cast; rw [hN]; norm_num at hd1 ⊢; linarith)
      (by push_cast; rw [hN]; norm_num at hd2 ⊢; linarith)
  have hvolt_lo : config.nominal_voltage - 1/10 ≤
      pyRound (config.nominal_voltage + d.voltage_variation) 3 := by
    have h := hvb.1; push_cast at h; linarith
  have hvolt_hi : pyRound (config.nominal_voltage + d.voltage_variation) 3 ≤
      config.nominal_voltage + 1/10 := by
    have h := hvb.2; push_cast at h; linarith
  have hcb := pyRound_bounds (-500) 500 d.current_draw 2
      (by push_cast; linarith) (by push_cast; linarith)
  have hcur_lo : (-5 : ℚ) ≤ pyRound d.current_draw 2 := by
    have h := hcb.1; norm_num at h; linarith
  have hcur_hi : pyRound d.current_draw 2 ≤ 5 := by
    have h := hcb.2; norm_num at h; linarith
  have habs : |pyRound d.current_draw 2| ≤ 5 := abs_le.mpr ⟨hcur_lo, hcur_hi⟩
  have habs0 : (0 : ℚ) ≤ |pyRound d.current_draw 2| := abs_nonneg _
  have htb := pyRound_bounds 230 355 (25 + (|pyRound d.current_draw 2| * 0.5 + d.temp_noise)) 1
      (by push_cast; norm_num; linarith) (by push_cast; norm_num; linarith)
  have htemp_lo : (23 : ℚ) ≤ pyRound (25 + (|pyRound d.current_draw 2| * 0.5 + d.temp_noise)) 1 := by
    have h := htb.1; norm_num at h; linarith
  have htemp_hi : pyRound (25 + (|pyRound d.current_draw 2| * 0.5 + d.temp_noise)) 1 ≤ 71/2 := by
    have h := htb.2; norm_num at h; linarith
  have hnom_lo : (12 : ℚ)/5 ≤ config.nominal_voltage := by rw [hN]; linarith
  have hnom_pos : (0 : ℚ) < config.nominal_voltage := by linarith
  have hdev : |pyRound (config.nominal_voltage + d.voltage_variation) 3 -
      config.nominal_voltage| ≤ 1/10 :=
    abs_le.mpr ⟨by linarith, by linarith⟩
  have hdiv : |pyRound (config.nominal_voltage + d.voltage_variation) 3 -
      config.nominal_voltage| / config.nominal_voltage ≤ (1/10) / (12/5) :=
    div_le_div₀ (by norm_num) hdev (by norm_num) hnom_lo
  have hdiv0 : 0 ≤ |pyRound (config.nominal_voltage + d.voltage_variation) 3 -
      config.nominal_voltage| / config.nominal_voltage :=
    div_nonneg (abs_nonneg _) (le_of_lt hnom_pos)
  have hvh_lo : 575/6 ≤ voltage_health config
      (pyRound (config.nominal_voltage + d.voltage_variation) 3) := by
    unfold voltage_health; norm_num at hdiv; linarith
  have hvh_hi : voltage_health config
      (pyRound (config.nominal_voltage + d.voltage_variation) 3) ≤ 100 := by
    unfold voltage_health; linarith
  have hm0 : (0 : ℚ) ≤ max 0
      (pyRound (25 + (|pyRound d.current_draw 2| * 0.5 + d.temp_noise)) 1 - 35) :=
    le_max_left 0 _
  have hm1 : max 0 (pyRound (25 + (|pyRound d.current_draw 2| * 0.5 + d.temp_noise)) 1 - 35) ≤
      1/2 :=
    max_le (by norm_num) (by linarith)
  have hth_lo : 195/2 ≤ temp_health
      (pyRound (25 + (|pyRound d.current_draw 2| * 0.5 + d.temp_noise)) 1) := by
    unfold temp_health
    have h2 := le_max_right (0 : ℚ)
      (1 - max 0 (pyRound (25 + (|pyRound d.current_draw 2| * 0.5 + d.temp_noise)) 1 - 35) / 20)
    linarith
  have hth_hi : temp_health
      (pyRound (25 + (|pyRound d.current_draw 2| * 0.5 + d.temp_noise)) 1) ≤ 100 := by
    unfold temp_health
    have h2 : max (0 : ℚ)
        (1 - max 0 (pyRound (25 + (|pyRound d.current_draw 2| * 0.5 + d.temp_noise)) 1 - 35) / 20) ≤
        1 :=
      max_le (by norm_num) (by linarith)
    linarith
  have hhb := pyRound_bounds 966 1000
      ((voltage_health config (pyRound (config.nominal_voltage + d.voltage_variation) 3) +
        temp_health (pyRound (25 + (|pyRound d.current_draw 2| * 0.5 + d.temp_noise)) 1)) / 2) 1
      (by push_cast; linarith) (by push_cast; linarith)
  have hh_lo : 483/5 ≤ pyRound
      ((voltage_health config (pyRound (config.nominal_voltage + d.voltage_variation) 3) +
        temp_health (pyRound (25 + (|pyRound d.current_draw 2| * 0.5 + d.temp_noise)) 1)) / 2)
      1 := by
    have h := hhb.1; norm_num at h; linarith
  have hh_hi : pyRound
      ((voltage_health config (pyRound (config.nominal_voltage + d.voltage_variation) 3) +
        temp_health (pyRound (25 + (|pyRound d.current_draw 2| * 0.5 + d.temp_noise)) 1)) / 2)
      1 ≤ 100 := by
    have h := hhb.2; norm_num at h; linarith
  have hcond1 : ¬(pyRound (config.nominal_voltage + d.voltage_variation) 3 < config.min_voltage ∨
      config.max_voltage < pyRound (config.nominal_voltage + d.voltage_variation) 3 ∨
      45 < pyRound (25 + (|pyRound d.current_draw 2| * 0.5 + d.temp_noise)) 1) := by
    push_neg
    exact ⟨by linarith, by linarith, by linarith⟩
  have hcond2 : ¬(40 < pyRound (25 + (|pyRound d.current_draw 2| * 0.5 + d.temp_noise)) 1 ∨
      pyRound ((voltage_health config (pyRound (config.nominal_voltage + d.voltage_variation) 3) +
        temp_health (pyRound (25 + (|pyRound d.current_draw 2| * 0.5 + d.temp_noise)) 1)) / 2)
        1 < 80) := by
    push_neg
    exact ⟨by linarith, by linarith⟩
  refine ⟨hvolt_lo, hvolt_hi, by linarith, by linarith, htemp_lo, htemp_hi, hvh_lo, hth_lo,
    hh_lo, hh_hi, ?_⟩
  rw [if_neg hcond1, if_neg hcond2]

/-- C1: for every chemistry profile and every reading produced by
`generate_cell_data`, the status is `"Critical"` iff the voltage leaves the
profile's `[min, max]` band or the temperature exceeds 45; otherwise it is
`"Warning"` iff the temperature exceeds 40 or the health is below 80;
otherwise it is `"Good"`. The Critical check takes precedence. -/
theorem status_classification (ct : String) (config : CellConfig)
    (hlk : List.lookup ct CELL_CONFIGS = some config)
    (cell_id : String) (t : ℚ) (d : Draws) (r : CellReading)
    (hr : generate_cell_data ct cell_id t d = some r) :
    (r.status = "Critical" ↔
      (r.voltage < config.min_voltage ∨ config.max_voltage < r.voltage ∨ 45 < r.temperature)) ∧
    (¬(r.voltage < config.min_voltage ∨ config.max_voltage < r.voltage ∨ 45 < r.temperature) →
      (r.status = "Warning" ↔ (40 < r.temperature ∨ r.health < 80))) ∧
    (¬(r.voltage < config.min_voltage ∨ config.max_voltage < r.voltage ∨ 45 < r.temperature) →
      ¬(40 < r.temperature ∨ r.health < 80) → r.status = "Good") := by
  unfold generate_cell_data at hr
  rw [hlk] at hr
  injection hr with hr
  subst hr
  unfold generateFromConfig
  dsimp only
  split_ifs with hc hw
  · exact ⟨iff_of_true rfl hc, fun h => absurd hc h, fun h _ => absurd hc h⟩
  · exact ⟨iff_of_false (by decide) hc, fun _ => iff_of_true rfl hw,
      fun _ hw2 => absurd hw hw2⟩
  · exact ⟨iff_of_false (by decide) hc, fun _ => iff_of_false (by decide) hw,
      fun _ _ => rfl⟩

/-- C1 witness: an LFP reading with voltage 3.65 V (above the 3.6 V maximum)
is classified Critical even though its health (93) is well above 80. -/
theorem status_classification_witness :
    ((c1_reading.status = "Critical" ↔
      (c1_reading.voltage < LFP_config.min_voltage ∨
        LFP_config.max_voltage < c1_reading.voltage ∨ 45 < c1_reading.temperature)) ∧
    (¬(c1_reading.voltage < LFP_config.min_voltage ∨
        LFP_config.max_voltage < c1_reading.voltage ∨ 45 < c1_reading.temperature) →
      (c1_reading.status = "Warning" ↔ (40 < c1_reading.temperature ∨ c1_reading.health < 80))) ∧
    (¬(c1_reading.voltage < LFP_config.min_voltage ∨
        LFP_config.max_voltage < c1_reading.voltage ∨ 45 < c1_reading.temperature) →
      ¬(40 < c1_reading.temperature ∨ c1_reading.health < 80) →
      c1_reading.status = "Good")) ∧
    c1_reading.voltage = 73/20 ∧ c1_reading.status = "Critical" ∧ 80 ≤ c1_reading.health := by
  refine ⟨status_classification "LFP" LFP_config rfl "Cell_1_LFP" 0 c1_draws c1_reading rfl,
    ?_, ?_, ?_⟩ <;>
  norm_num [c1_reading, c1_draws, generateFromConfig, LFP_config, voltage_health, temp_health,
    pyRound, pyRoundInt, Rat.floor_def, abs_of_nonneg, abs_of_nonpos]

/-- C2: every generated reading's health is `round((voltageHealth + tempHealth)/2, 1)`
with `voltageHealth = 100*(1 - |voltage - nominal|/nominal)` and
`tempHealth = 100*max(0, 1 - max(0, temperature - 35)/20)`; and `voltageHealth`
is not clamped: a sufficiently large voltage deviation drives it below zero. -/
theorem health_formula (ct : String) (config : CellConfig)
    (hlk : List.lookup ct CELL_CONFIGS = some config)
    (cell_id : String) (t : ℚ) (d : Draws) (r : CellReading)
    (hr : generate_cell_data ct cell_id t d = some r) :
    r.health = pyRound ((voltage_health config r.voltage + temp_health r.temperature) / 2) 1 ∧
    ∃ d2 r2, generate_cell_data "LFP" "Cell_1_LFP" 0 d2 = some r2 ∧
      voltage_health LFP_config r2.voltage < 0 ∧ r2.health < 0 := by
  constructor
  · unfold generate_cell_data at hr
    rw [hlk] at hr
    injection hr with hr
    subst hr
    rfl
  · refine ⟨⟨100, 0, 0, 3⟩, generateFromConfig LFP_config "LFP" "Cell_1_LFP" 0 ⟨100, 0, 0, 3⟩,
      rfl, ?_, ?_⟩ <;>
    norm_num [generateFromConfig, LFP_config, voltage_health, temp_health,
      pyRound, pyRoundInt, Rat.floor_def, abs_of_nonneg, abs_of_nonpos]

/-- C2 witness: the health of the sample LFP reading `r0` equals the documented
rounded average of its voltage- and temperature-health components. -/
theorem health_formula_witness :
    r0.health = pyRound ((voltage_health LFP_config r0.voltage + temp_health r0.temperature) / 2) 1 ∧
    ∃ d2 r2, generate_cell_data "LFP" "Cell_1_LFP" 0 d2 = some r2 ∧
      voltage_health LFP_config r2.voltage < 0 ∧ r2.health < 0 :=
  health_formula "LFP" LFP_config rfl "Cell_1_LFP" 0 d0 r0 rfl

/-- C5: `generate_cell_data` returns a reading exactly when the chemistry is
one of the four configured variants; any other identifier makes the
`CELL_CONFIGS` lookup fail (a `KeyError`), never a silent default. -/
theorem generate_fails_iff_unknown_chemistry (ct cell_id : String) (t : ℚ) (d : Draws) :
    (generate_cell_data ct cell_id t d).isSome = true ↔
      (ct = "LFP" ∨ ct = "NMC" ∨ ct = "LTO" ∨ ct = "LiCoO2") := by
  by_cases h1 : ct = "LFP"
  · subst h1; simp [generate_cell_data, CELL_CONFIGS, List.lookup]
  by_cases h2 : ct = "NMC"
  · subst h2; simp [generate_cell_data, CELL_CONFIGS, List.lookup]
  by_cases h3 : ct = "LTO"
  · subst h3; simp [generate_cell_data, CELL_CONFIGS, List.lookup]
  by_cases h4 : ct = "LiCoO2"
  · subst h4; simp [generate_cell_data, CELL_CONFIGS, List.lookup]
  have e1 : (ct == "LFP") = false := beq_eq_false_iff_ne.mpr h1
  have e2 : (ct == "NMC") = false := beq_eq_false_iff_ne.mpr h2
  have e3 : (ct == "LTO") = false := beq_eq_false_iff_ne.mpr h3
  have e4 : (ct == "LiCoO2") = false := beq_eq_false_iff_ne.mpr h4
  have hnone : List.lookup ct CELL_CONFIGS = none := by
    simp [CELL_CONFIGS, List.lookup, e1, e2, e3, e4]
  simp [generate_cell_data, hnone, h1, h2, h3, h4]

/-- C3: for every configured chemistry and every valid uniform draw, the
generated (rounded) voltage lies within `[nominal − 0.1, nominal + 0.1]`. -/
theorem generate_voltage_within_band (ct : String) (config : CellConfig)
    (hlk : List.lookup ct CELL_CONFIGS = some config)
    (cell_id : String) (t : ℚ) (d : Draws) (hd : d.valid) (r : CellReading)
    (hr : generate_cell_data ct cell_id t d = some r) :
    config.nominal_voltage - 1/10 ≤ r.voltage ∧ r.voltage ≤ config.nominal_voltage + 1/10 := by
  have hcases := lookup_config_cases ct config hlk
  unfold generate_cell_data at hr
  rw [hlk] at hr
  injection hr with hr
  rcases hcases with h | h | h | h <;> subst h
  · have hb := generateFromConfig_bounds LFP_config 32 (by norm_num [LFP_config]) (by norm_num)
      (by norm_num [LFP_config]) (by norm_num [LFP_config]) ct cell_id t d hd r hr.symm
    exact ⟨hb.1, hb.2.1⟩
  · have hb := generateFromConfig_bounds NMC_config 36 (by norm_num [NMC_config]) (by norm_num)
      (by norm_num [NMC_config]) (by norm_num [NMC_config]) ct cell_id t d hd r hr.symm
    exact ⟨hb.1, hb.2.1⟩
  · have hb := generateFromConfig_bounds LTO_config 24 (by norm_num [LTO_config]) (by norm_num)
      (by norm_num [LTO_config]) (by norm_num [LTO_config]) ct cell_id t d hd r hr.symm
    exact ⟨hb.1, hb.2.1⟩
  · have hb := generateFromConfig_bounds LiCoO2_config 37 (by norm_num [LiCoO2_config])
      (by norm_num) (by norm_num [LiCoO2_config]) (by norm_num [LiCoO2_config])
      ct cell_id t d hd r hr.symm
    exact ⟨hb.1, hb.2.1⟩

/-- C3 witness: the sample LFP reading `r0` stays within ±0.1 V of nominal. -/
theorem generate_voltage_within_band_witness :
    LFP_config.nominal_voltage - 1/10 ≤ r0.voltage ∧
      r0.voltage ≤ LFP_config.nominal_voltage + 1/10 :=
  generate_voltage_within_band "LFP" LFP_config rfl "Cell_1_LFP" 0 d0
    (by norm_num [Draws.valid, d0]) r0 rfl

/-- C8: with draws inside their stated uniform ranges, every reading the
generator produces for a configured chemistry is classified `"Good"`: the
temperature never exceeds 35.5 °C (so the 45 °C and 40 °C branches are
unreachable), the voltage stays inside the profile's `[min, max]` band, and
the health never drops below 80. -/
theorem generate_always_good (ct : String)
    (hct : ct = "LFP" ∨ ct = "NMC" ∨ ct = "LTO" ∨ ct = "LiCoO2")
    (cell_id : String) (t : ℚ) (d : Draws) (hd : d.valid) (r : CellReading)
    (hr : generate_cell_data ct cell_id t d = some r) :
    r.status = "Good" ∧ r.temperature ≤ 71/2 ∧ ¬(45 < r.temperature) ∧ ¬(40 < r.temperature) ∧
    r.min_voltage ≤ r.voltage ∧ r.voltage ≤ r.max_voltage ∧ 80 ≤ r.health := by
  have hlk : ∃ config, List.lookup ct CELL_CONFIGS = some config := by
    rcases hct with h | h | h | h <;> subst h
    · exact ⟨LFP_config, rfl⟩
    · exact ⟨NMC_config, rfl⟩
    · exact ⟨LTO_config, rfl⟩
    · exact ⟨LiCoO2_config, rfl⟩
  obtain ⟨config, hlk⟩ := hlk
  have hcases := lookup_config_cases ct config hlk
  unfold generate_cell_data at hr
  rw [hlk] at hr
  injection hr with hr
  have hb : config.nominal_voltage - 1/10 ≤ r.voltage ∧
      r.voltage ≤ config.nominal_voltage + 1/10 ∧
      r.min_voltage ≤ r.voltage ∧ r.voltage ≤ r.max_voltage ∧
      23 ≤ r.temperature ∧ r.temperature ≤ 71/2 ∧
      575/6 ≤ voltage_health config r.voltage ∧ 195/2 ≤ temp_health r.temperature ∧
      483/5 ≤ r.health ∧ r.health ≤ 100 ∧ r.status = "Good" := by
    rcases hcases with h | h | h | h <;> subst h
    · exact generateFromConfig_bounds LFP_config 32 (by norm_num [LFP_config]) (by norm_num)
        (by norm_num [LFP_config]) (by norm_num [LFP_config]) ct cell_id t d hd r hr.symm
    · exact generateFromConfig_bounds NMC_config 36 (by norm_num [NMC_config]) (by norm_num)
        (by norm_num [NMC_config]) (by norm_num [NMC_config]) ct cell_id t d hd r hr.symm
    · exact generateFromConfig_bounds LTO_config 24 (by norm_num [LTO_config]) (by norm_num)
        (by norm_num [LTO_config]) (by norm_num [LTO_config]) ct cell_id t d hd r hr.symm
    · exact generateFromConfig_bounds LiCoO2_config 37 (by norm_num [LiCoO2_config])
        (by norm_num) (by norm_num [LiCoO2_config]) (by norm_num [LiCoO2_config])
        ct cell_id t d hd r hr.symm
  obtain ⟨-, -, h3, h4, -, h6, -, -, h9, -, h11⟩ := hb
  exact ⟨h11, h6, by linarith, by linarith, h3, h4, by linarith⟩

/-- C8 witness: the sample LFP reading `r0` is `"Good"`, within temperature
and voltage bounds, with health at least 80. -/
theorem generate_always_good_witness :
    r0.status = "Good" ∧ r0.temperature ≤ 71/2 ∧ ¬(45 < r0.temperature) ∧
    ¬(40 < r0.temperature) ∧ r0.min_voltage ≤ r0.voltage ∧ r0.voltage ≤ r0.max_voltage ∧
    80 ≤ r0.health :=
  generate_always_good "LFP" (Or.inl rfl) "Cell_1_LFP" 0 d0
    (by norm_num [Draws.valid, d0]) r0 rfl

/-- C9: with draws inside their stated uniform ranges, the health of every
generated reading is strictly above 95 and at most 100 (in particular it never
leaves `[0, 100]` even though the formula is unclamped); the temperature-health
component is at least 97.5 and the voltage-health component at least
`100 × (1 − 0.1/2.4)`. -/
theorem generate_health_range (ct : String) (config : CellConfig)
    (hlk : List.lookup ct CELL_CONFIGS = some config)
    (cell_id : String) (t : ℚ) (d : Draws) (hd : d.valid) (r : CellReading)
    (hr : generate_cell_data ct cell_id t d = some r) :
    95 < r.health ∧ r.health ≤ 100 ∧ 0 ≤ r.health ∧
    195/2 ≤ temp_health r.temperature ∧ 575/6 ≤ voltage_health config r.voltage := by
  have hcases := lookup_config_cases ct config hlk
  unfold generate_cell_data at hr
  rw [hlk] at hr
  injection hr with hr
  have hb : config.nominal_voltage - 1/10 ≤ r.voltage ∧
      r.voltage ≤ config.nominal_voltage + 1/10 ∧
      r.min_voltage ≤ r.voltage ∧ r.voltage ≤ r.max_voltage ∧
      23 ≤ r.temperature ∧ r.temperature ≤ 71/2 ∧
      575/6 ≤ voltage_health config r.voltage ∧ 195/2 ≤ temp_health r.temperature ∧
      483/5 ≤ r.health ∧ r.health ≤ 100 ∧ r.status = "Good" := by
    rcases hcases with h | h | h | h <;> subst h
    · exact generateFromConfig_bounds LFP_config 32 (by norm_num [LFP_config]) (by norm_num)
        (by norm_num [LFP_config]) (by norm_num [LFP_config]) ct cell_id t d hd r hr.symm
    · exact generateFromConfig_bounds NMC_config 36 (by norm_num [NMC_config]) (by norm_num)
        (by norm_num [NMC_config]) (by norm_num [NMC_config]) ct cell_id t d hd r hr.symm
    · exact generateFromConfig_bounds LTO_config 24 (by norm_num [LTO_config]) (by norm_num)
        (by norm_num [LTO_config]) (by norm_num [LTO_config]) ct cell_id t d hd r hr.symm
    · exact generateFromConfig_bounds LiCoO2_config 37 (by norm_num [LiCoO2_config])
        (by norm_num) (by norm_num [LiCoO2_config]) (by norm_num [LiCoO2_config])
        ct cell_id t d hd r hr.symm
  obtain ⟨-, -, -, -, -, -, h7, h8, h9, h10, -⟩ := hb
  exact ⟨by linarith, h10, by linarith, h8, h7⟩

/-- C9 witness: the sample LFP reading `r0` has health in `(95, 100]` with the
stated component bounds. -/
theorem generate_health_range_witness :
    95 < r0.health ∧ r0.health ≤ 100 ∧ 0 ≤ r0.health ∧
    195/2 ≤ temp_health r0.temperature ∧ 575/6 ≤ voltage_health LFP_config r0.voltage :=
  generate_health_range "LFP" LFP_config rfl "Cell_1_LFP" 0 d0
    (by norm_num [Draws.valid, d0]) r0 rfl

/-- Folding the tick's history update from an empty buffer keeps exactly the
last 100 appended snapshots, in append order. -/
lemma tickHistory_foldl (l : List Snapshot) :
    List.foldl tickHistory [] l = l.drop (l.length - 100) := by
  induction l using List.reverseRecOn with
  | nil => rfl
  | append_singleton l a ih =>
      rw [List.foldl_append, List.foldl_cons, List.foldl_nil, ih]
      by_cases h : l.length ≤ 99
      · have h0 : l.length - 100 = 0 := by omega
        rw [h0, List.drop_zero]
        unfold tickHistory
        have h1 : ¬ 100 < (l ++ [a]).length := by
          rw [List.length_append]; simp; omega
        rw [if_neg h1]
        have h2 : (l ++ [a]).length - 100 = 0 := by
          rw [List.length_append]; simp; omega
        rw [h2, List.drop_zero]
      · have hlen100 : (l.drop (l.length - 100)).length = 100 := by
          rw [List.length_drop]; omega
        unfold tickHistory
        have hc : 100 < (l.drop (l.length - 100) ++ [a]).length := by
          rw [List.length_append, hlen100]; norm_num
        rw [if_pos hc]
        have hidx : (l.drop (l.length - 100) ++ [a]).length - 100 = 1 := by
          rw [List.length_append, hlen100]; simp
        rw [hidx]
        rw [List.drop_append_of_le_length (by omega : 1 ≤ (l.drop (l.length - 100)).length)]
        rw [List.drop_drop]
        rw [List.drop_append_of_le_length (by simp)]
        have heq : l.length - 100 + 1 = (l ++ [a]).length - 100 := by
          simp; omega
        rw [heq]

/-- C4: appending 150 snapshots one per tick into the empty history buffer
leaves exactly the 100 most recently appended snapshots, in append order
(the first 50 are evicted FIFO). -/
theorem history_buffer_capacity (l : List Snapshot) (hl : l.length = 150) :
    List.foldl tickHistory [] l = l.drop 50 ∧ (List.foldl tickHistory [] l).length = 100 := by
  have h := tickHistory_foldl l
  rw [hl] at h
  norm_num at h
  exact ⟨h, by rw [h, List.length_drop, hl]⟩

/-- 150 distinct snapshots with timestamps 0, 1, …, 149. -/
def snaps150 : List Snapshot := (List.range 150).map (fun (i : ℕ) => ((i : ℚ), []))

/-- C4 witness: the 150 concrete snapshots of `snaps150` fold to their last
100 entries. -/
theorem history_buffer_capacity_witness :
    List.foldl tickHistory [] snaps150 = snaps150.drop 50 ∧
      (List.foldl tickHistory [] snaps150).length = 100 :=
  history_buffer_capacity snaps150 (by rw [snaps150, List.length_map, List.length_range])

/-- C6: the main area shows the placeholder exactly when the current-readings
store is empty; on a non-empty store it shows the overview aggregates, whose
mean health divides by the (positive) number of readings. -/
theorem render_main_empty_guard (cells_data : List (String × CellReading)) :
    (render_main cells_data = MainView.placeholder ↔ cells_data = []) ∧
    (cells_data ≠ [] → 0 < cells_data.length ∧
      render_main cells_data = MainView.overview
        cells_data.length
        (cells_data.countP (fun cell => cell.2.status == "Good"))
        (cells_data.countP (fun cell => cell.2.status == "Warning"))
        (cells_data.countP (fun cell => cell.2.status == "Critical"))
        ((cells_data.map (fun cell => cell.2.health)).sum / cells_data.length)
        ((cells_data.map (fun cell => cell.2.power)).sum)) := by
  constructor
  · constructor
    · intro h
      by_contra hne
      unfold render_main at h
      rw [if_neg (by simpa [List.isEmpty_iff] using hne)] at h
      exact MainView.noConfusion h
    · intro h; subst h; rfl
  · intro h
    refine ⟨List.length_pos.mpr h, ?_⟩
    unfold render_main
    rw [if_neg (by simpa [List.isEmpty_iff] using h)]

/-- C6 witness: instantiation at a one-reading store (no placeholder, defined
aggregates) — the empty-store direction of the iff is closed as well. -/
theorem render_main_empty_guard_witness :
    (render_main [("Cell_1_LFP", r0)] = MainView.placeholder ↔
      [("Cell_1_LFP", r0)] = ([] : List (String × CellReading))) ∧
    ([("Cell_1_LFP", r0)] ≠ ([] : List (String × CellReading)) →
      0 < [("Cell_1_LFP", r0)].length ∧
      render_main [("Cell_1_LFP", r0)] = MainView.overview
        [("Cell_1_LFP", r0)].length
        ([("Cell_1_LFP", r0)].countP (fun cell => cell.2.status == "Good"))
        ([("Cell_1_LFP", r0)].countP (fun cell => cell.2.status == "Warning"))
        ([("Cell_1_LFP", r0)].countP (fun cell => cell.2.status == "Critical"))
        (([("Cell_1_LFP", r0)].map (fun cell => cell.2.health)).sum /
          [("Cell_1_LFP", r0)].length)
        (([("Cell_1_LFP", r0)].map (fun cell => cell.2.power)).sum)) :=
  render_main_empty_guard [("Cell_1_LFP", r0)]

/-- A successful regeneration pass only appends to the heap, and every address
it stores in the updated cell map points into the new heap. -/
lemma regen_spec (entries : List (String × ℕ)) :
    ∀ (heap : List CellReading) (t : ℚ) (ds : List Draws)
      (heap' : List CellReading) (cells' : List (String × ℕ)),
      regen heap entries t ds = some (heap', cells') →
      heap <+: heap' ∧ ∀ p ∈ cells', p.2 < heap'.length := by
  induction entries with
  | nil =>
      intro heap t ds heap' cells' h
      simp [regen] at h
      obtain ⟨h1, h2⟩ := h
      subst h1; subst h2
      exact ⟨List.prefix_refl _, by simp⟩
  | cons e rest ih =>
      intro heap t ds heap' cells' h
      obtain ⟨cell_id, addr⟩ := e
      cases ds with
      | nil => simp [regen] at h
      | cons d ds' =>
          unfold regen at h
          cases hget : heap[addr]? with
          | none => rw [hget] at h; simp at h
          | some old =>
              rw [hget] at h
              dsimp only at h
              cases hgen : generate_cell_data old.cell_type cell_id t d with
              | none => rw [hgen] at h; simp at h
              | some r =>
                  rw [hgen] at h
                  dsimp only at h
                  cases hrec : regen (heap ++ [r]) rest t ds' with
                  | none => rw [hrec] at h; simp at h
                  | some pr =>
                      obtain ⟨h1, c1⟩ := pr
                      rw [hrec] at h
                      dsimp only at h
                      simp only [Option.some.injEq, Prod.mk.injEq] at h
                      obtain ⟨hh, hc⟩ := h
                      subst hh
                      subst hc
                      obtain ⟨hpre, hbound⟩ := ih (heap ++ [r]) t ds' h1 c1 hrec
                      refine ⟨(List.prefix_append heap [r]).trans hpre, ?_⟩
                      intro p hp
                      rcases List.mem_cons.mp hp with hp | hp
                      · subst hp
                        have hlen : (heap ++ [r]).length ≤ h1.length := hpre.length_le
                        rw [List.length_append] at hlen
                        simp only [List.length_singleton] at hlen
                        omega
                      · exact hbound p hp

/-- Reading an address below the old heap's length is unaffected by appending. -/
lemma prefix_getElem? {l1 l2 : List CellReading} (h : l1 <+: l2) {i : ℕ}
    (hi : i < l1.length) : l2[i]? = l1[i]? := by
  obtain ⟨u, rfl⟩ := h
  exact List.getElem?_append_left hi

/-- Every snapshot of the updated history was either already in the buffer or
is the snapshot appended this tick. -/
lemma mem_tickHistory {l : List Snapshot} {s x : Snapshot} (h : x ∈ tickHistory l s) :
    x ∈ l ++ [s] := by
  unfold tickHistory at h
  by_cases hc : 100 < (l ++ [s]).length
  · rw [if_pos hc] at h
    exact List.mem_of_mem_drop h
  · rwa [if_neg hc] at h

/-- Shape of a successful monitoring tick: the regenerated heap and cell map,
with the new snapshot appended to the capped history. -/
lemma tick_monitoring_eq {st : DashState} {t : ℚ} {ds : List Draws} {st' : DashState}
    (hm : st.is_monitoring = true) (h : tick st t ds = some st') :
    ∃ heap' cells', regen st.heap st.cells_data t ds = some (heap', cells') ∧
      st' = { heap := heap'
              cells_data := cells'
              historical_data := tickHistory st.historical_data (t, cells')
              is_monitoring := st.is_monitoring } := by
  unfold tick at h
  rw [if_pos hm] at h
  cases hreg : regen st.heap st.cells_data t ds with
  | none => rw [hreg] at h; simp at h
  | some pr =>
      obtain ⟨heap', cells'⟩ := pr
      rw [hreg] at h
      simp only [Option.some.injEq] at h
      exact ⟨heap', cells', rfl, h.symm⟩

/-- C7: each history snapshot is effectively an immutable copy — a monitoring
tick (which regenerates every reading and appends a new snapshot) does not
change the readings denoted by any snapshot already in the buffer, and the
address-validity invariant is preserved. -/
theorem tick_preserves_snapshots (st : DashState) (t : ℚ) (ds : List Draws) (st' : DashState)
    (h : tick st t ds = some st') (hwf : wfState st) :
    (∀ snap ∈ st.historical_data,
      snapshotReadings st'.heap snap = snapshotReadings st.heap snap) ∧
    wfState st' := by
  by_cases hm : st.is_monitoring = true
  · obtain ⟨heap', cells', hreg, hst'⟩ := tick_monitoring_eq hm h
    obtain ⟨hpre, hbound⟩ := regen_spec st.cells_data st.heap t ds heap' cells' hreg
    subst hst'
    dsimp only
    constructor
    · intro snap hsnap
      unfold snapshotReadings
      apply List.map_congr_left
      intro p hp
      have hlt : p.2 < st.heap.length := hwf snap hsnap p hp
      rw [prefix_getElem? hpre hlt]
    · intro snap hsnap
      intro p hp
      dsimp only at hsnap
      show p.2 < heap'.length
      rcases List.mem_append.mp (mem_tickHistory hsnap) with hold | hnew
      · have h1 := hwf snap hold p hp
        have h2 : st.heap.length ≤ heap'.length := hpre.length_le
        omega
      · have hs : snap = (t, cells') := by simpa using hnew
        subst hs
        exact hbound p hp
  · unfold tick at h
    rw [if_neg hm] at h
    simp only [Option.some.injEq] at h
    subst h
    exact ⟨fun snap _ => rfl, hwf⟩

/-- The reading regenerated for the LFP cell at the witness tick. -/
def r1 : CellReading := generateFromConfig LFP_config "LFP" "Cell_1_LFP" 1 d0

/-- A monitoring state holding one LFP cell and one history snapshot. -/
def st0 : DashState :=
  { heap := [r0]
    cells_data := [("Cell_1_LFP", 0)]
    historical_data := [(0, [("Cell_1_LFP", 0)])]
    is_monitoring := true }

/-- The state after one monitoring tick from `st0` at time 1 with draws `d0`. -/
def st0' : DashState :=
  { heap := [r0, r1]
    cells_data := [("Cell_1_LFP", 1)]
    historical_data := [(0, [("Cell_1_LFP", 0)]), (1, [("Cell_1_LFP", 1)])]
    is_monitoring := true }

/-- C7 witness: the concrete tick `st0 → st0'` leaves the stored snapshot's
denoted readings unchanged and preserves well-formedness. -/
theorem tick_preserves_snapshots_witness :
    (∀ snap ∈ st0.historical_data,
      snapshotReadings st0'.heap snap = snapshotReadings st0.heap snap) ∧
    wfState st0' :=
  tick_preserves_snapshots st0 1 [d0] st0' rfl (by
    intro snap hs p hp
    simp [st0] at hs
    subst hs
    simp at hp
    simp [hp, st0])

/-- C10: a re-render tick while monitoring is stopped leaves the session state
untouched — in particular the current-readings store and the history buffer
are exactly as before. -/
theorem tick_stopped_noop (st : DashState) (t : ℚ) (ds : List Draws)
    (h : st.is_monitoring = false) :
    tick st t ds = some st ∧
    ∀ st', tick st t ds = some st' →
      st'.cells_data = st.cells_data ∧ st'.historical_data = st.historical_data ∧
      st'.heap = st.heap := by
  have h0 : tick st t ds = some st := by simp [tick, h]
  refine ⟨h0, fun st' h' => ?_⟩
  rw [h0] at h'
  simp only [Option.some.injEq] at h'
  subst h'
  exact ⟨rfl, rfl, rfl⟩

/-- The stopped-monitoring variant of the witness state. -/
def st_stopped : DashState :=
  { heap := [r0]
    cells_data := [("Cell_1_LFP", 0)]
    historical_data := [(0, [("Cell_1_LFP", 0)])]
    is_monitoring := false }

/-- C10 witness: ticking the concrete stopped state changes nothing. -/
theorem tick_stopped_noop_witness :
    tick st_stopped 1 [d0] = some st_stopped ∧
    ∀ st', tick st_stopped 1 [d0] = some st' →
      st'.cells_data = st_stopped.cells_data ∧
      st'.historical_data = st_stopped.historical_data ∧
      st'.heap = st_stopped.heap :=
  tick_stopped_noop st_stopped 1 [d0] rfl
